import Mathlib

/-!
Shallow embedding of the guardrail-evaluation logic of the Frontier-Trading
repository, together with theorems settling the specification claims.

Two Python modules are embedded:

* src/ai/copilot.py — the class AlertAnalyzer: the method _check_guardrails
  (lines 310-343) and the buying-power-usage computation of
  _parse_ai_suggestion (lines 251-257).
* src/ai/models/copilot.py — the class SafetyGuardrails (__init__,
  validate_suggestion, add_forbidden_symbol) and the method
  CopilotAnalyzer._analyze_position_concentration (lines 335-361).

Modelling conventions:

* Python floats are modelled by the rationals ℚ (every literal used by the
  code and the claims is an exact decimal).
* A Python dict field read with d.get(key, default) is modelled by a field
  of type Option ℚ together with Option.getD default: none stands for an
  absent key, some v for a present key of value v.
* Python division raises ZeroDivisionError on a zero denominator, so a
  division performed by the code is modelled by pydiv, returning none when
  the denominator is zero; a computation that can divide returns an Option.
* The call datetime.now() inside the code is an ambient-clock read; it is
  surfaced as an explicit parameter now, following the shallow-embedding
  rule that effectful reads become explicit inputs.
-/

namespace FrontierTrading

/-- Python division: a / b raises ZeroDivisionError when b = 0; the raise is
modelled as none. -/
def pydiv (a b : ℚ) : Option ℚ :=
  if b = 0 then none else some (a / b)

theorem pydiv_of_ne_zero (a b : ℚ) (hb : b ≠ 0) : pydiv a b = some (a / b) := by
  simp [pydiv, hb]

theorem pydiv_zero (a : ℚ) : pydiv a 0 = none := by
  simp [pydiv]

/-- A wall-clock time of day, as read by datetime.now(): the code only ever
inspects the hour (the minute is kept so that distinct clock readings with
the same hour exist). -/
structure Time where
  hour : ℕ
  minute : ℕ
deriving DecidableEq

/-- The account_data dict of src/ai/copilot.py as read by _check_guardrails
and _parse_ai_suggestion: each field is an optional dict entry. -/
structure AccountData where
  buying_power : Option ℚ
  equity : Option ℚ
  daily_pnl : Option ℚ
  daily_loss_limit : Option ℚ
deriving DecidableEq

/-- The GuardrailCheck dataclass of src/ai/copilot.py (lines 57-68). -/
structure GuardrailCheck where
  max_position_ok : Bool
  daily_loss_ok : Bool
  market_hours_ok : Bool
  pattern_day_trader_ok : Bool
  risk_limits_ok : Bool
  violations : List String
deriving DecidableEq

/-- The violations list built by AlertAnalyzer._check_guardrails
(src/ai/copilot.py lines 313-330): buying-power check with dict default 0,
position-size check against equity (default 1) times 5 percent, daily-loss
check with defaults 0 and -1000, appended in that order. -/
def check_guardrails_violations (account_data : AccountData) (estimated_cost : ℚ) :
    List String :=
  (if account_data.buying_power.getD 0 < estimated_cost
    then ["Insufficient buying power"] else []) ++
  (if account_data.equity.getD 1 * (5 / 100) < estimated_cost
    then ["Position size exceeds 5% portfolio limit"] else []) ++
  (if account_data.daily_pnl.getD 0 < account_data.daily_loss_limit.getD (-1000)
    then ["Daily loss limit reached"] else [])

/-- AlertAnalyzer._check_guardrails (src/ai/copilot.py lines 310-343).
The symbol parameter is accepted, as in the source, and never read.
market_hours_ok is 9 <= now.hour < 16, where now is the datetime.now()
read made explicit; max_position_ok and risk_limits_ok are both
len(violations) == 0, daily_loss_ok is daily_pnl >= daily_limit, and
pattern_day_trader_ok is the constant True. -/
def check_guardrails (account_data : AccountData) (estimated_cost : ℚ)
    (symbol : String) (now : Time) : GuardrailCheck :=
  ⟨(check_guardrails_violations account_data estimated_cost).isEmpty,
   decide (account_data.daily_loss_limit.getD (-1000) ≤ account_data.daily_pnl.getD 0),
   decide (9 ≤ now.hour ∧ now.hour < 16),
   true,
   (check_guardrails_violations account_data estimated_cost).isEmpty,
   check_guardrails_violations account_data estimated_cost⟩

/-- The buying-power-usage figure of AlertAnalyzer._parse_ai_suggestion
(src/ai/copilot.py lines 253 and 257): bp_usage = (estimated_cost /
account_data.get("buying_power", 1)) * 100, stored as min(bp_usage, 100.0).
The division is Python division, so an explicitly zero buying_power makes
the computation raise (none). -/
def bp_usage_pct (estimated_cost : ℚ) (buying_power : Option ℚ) : Option ℚ :=
  (pydiv estimated_cost (buying_power.getD 1)).map (fun r => min (r * 100) 100)

/-- The ConfidenceLevel enum of src/ai/models/copilot.py (lines 23-26). -/
inductive ConfidenceLevel
  | low
  | medium
  | high
deriving DecidableEq

/-- The RiskLevel enum of src/ai/models/copilot.py (lines 28-32). -/
inductive RiskLevel
  | low
  | medium
  | high
  | extreme
deriving DecidableEq

/-- The .value attribute of a RiskLevel enum member. -/
def RiskLevel.value : RiskLevel → String
  | .low => "low"
  | .medium => "medium"
  | .high => "high"
  | .extreme => "extreme"

/-- A Python value stored in a data_points dict: the concentration insights
store one string (the symbol) and one number (the concentration). -/
inductive PyVal
  | str (s : String)
  | num (q : ℚ)
deriving DecidableEq

/-- The CopilotInsight dataclass of src/ai/models/copilot.py (lines 34-63),
restricted to the fields the embedded code reads or writes.  The description
field — a presentation string interpolating the same symbol and
concentration that appear in data_points, with float percent formatting —
is omitted from the embedding; the id and data_points fields carry the
identifying data. -/
structure CopilotInsight where
  id : String
  type : String
  title : String
  confidence : ConfidenceLevel
  risk_level : RiskLevel
  sources : List String
  timestamp : Time
  actionable : Bool
  suggested_actions : List String
  data_points : List (String × PyVal)
deriving DecidableEq

/-- The SafetyGuardrails configuration state (src/ai/models/copilot.py
lines 95-104): the three entries of the risk_thresholds dict are the
volatility, drawdown and concentration fields, and the forbidden_symbols
set is modelled as a duplicate-free list. -/
structure SafetyGuardrails where
  max_position_size_pct : ℚ
  max_daily_loss_pct : ℚ
  max_leverage : ℚ
  forbidden_symbols : List String
  volatility_threshold : ℚ
  drawdown_threshold : ℚ
  concentration_threshold : ℚ
deriving DecidableEq

/-- The defaults set by SafetyGuardrails.__init__: 5 percent position size,
2 percent daily loss, 2x leverage, empty forbidden set, thresholds
0.5 / 0.1 / 0.3. -/
def SafetyGuardrails.init : SafetyGuardrails :=
  ⟨5 / 100, 2 / 100, 2, [], 1 / 2, 1 / 10, 3 / 10⟩

/-- Python str.upper(), character by character, for the ASCII ticker
symbols the code handles. -/
def pyUpper (s : String) : String :=
  ⟨s.data.map Char.toUpper⟩

/-- SafetyGuardrails.add_forbidden_symbol (src/ai/models/copilot.py lines
133-135): set.add of symbol.upper(), a no-op when already present. -/
def add_forbidden_symbol (g : SafetyGuardrails) (symbol : String) : SafetyGuardrails :=
  if pyUpper symbol ∈ g.forbidden_symbols then g
  else { g with forbidden_symbols := pyUpper symbol :: g.forbidden_symbols }

/-- The portfolio part of the context dict passed to validate_suggestion:
the two entries the code reads, each optional. -/
structure PortfolioCtx where
  daily_pnl : Option ℚ
  total_value : Option ℚ
deriving DecidableEq

/-- The market part of the context dict passed to validate_suggestion. -/
structure MarketCtx where
  volatility : Option ℚ
deriving DecidableEq

/-- The context dict of validate_suggestion: context.get("portfolio", {})
followed by a truthiness test means an absent or empty portfolio dict is
skipped, modelled as none; likewise for market. -/
structure ValidationContext where
  portfolio : Option PortfolioCtx
  market : Option MarketCtx
deriving DecidableEq

/-- The market-volatility tail of validate_suggestion (src/ai/models/
copilot.py lines 125-131): if the market context is truthy and its
volatility (default 0) exceeds risk_thresholds["volatility"], reject;
otherwise return (True, "Suggestion validated"). -/
def market_volatility_step (g : SafetyGuardrails) (ctx : ValidationContext) :
    Option (Bool × String) :=
  match ctx.market with
  | some mk =>
    if g.volatility_threshold < mk.volatility.getD 0 then
      some (false, "Market volatility too high")
    else
      some (true, "Suggestion validated")
  | none => some (true, "Suggestion validated")

/-- SafetyGuardrails.validate_suggestion (src/ai/models/copilot.py lines
106-131): risk-level gate, then confidence gate, then — when the portfolio
context is truthy — the daily-loss gate abs(daily_pnl / total_value) >
max_daily_loss_pct (Python division, so an explicitly zero total_value
raises, modelled as none), then the market-volatility gate. -/
def validate_suggestion (g : SafetyGuardrails) (insight : CopilotInsight)
    (ctx : ValidationContext) : Option (Bool × String) :=
  if insight.risk_level = RiskLevel.high ∨ insight.risk_level = RiskLevel.extreme then
    some (false, "Risk level " ++ insight.risk_level.value ++ " exceeds safety threshold")
  else if insight.confidence = ConfidenceLevel.low then
    some (false, "Confidence level too low for actionable suggestion")
  else
    match ctx.portfolio with
    | some pf =>
      match pydiv (pf.daily_pnl.getD 0) (pf.total_value.getD 1) with
      | none => none
      | some r =>
        if g.max_daily_loss_pct < |r| then
          some (false, "Daily loss limit exceeded")
        else
          market_volatility_step g ctx
    | none => market_volatility_step g ctx

/-- One entry of the positions list of a portfolio dict, as read by
_analyze_position_concentration: position["symbol"] is indexed directly
(so it must be present), position.get("market_value", 0) is optional. -/
structure PositionEntry where
  symbol : String
  market_value : Option ℚ
deriving DecidableEq

/-- The portfolio_data dict as read by _analyze_position_concentration:
positions (default []) and total_value (default 1). -/
structure PortfolioData where
  positions : List PositionEntry
  total_value : Option ℚ
deriving DecidableEq

/-- The concentration-risk insight constructed for one over-concentrated
position (src/ai/models/copilot.py lines 347-359): timestamp is the
datetime.now() read, made explicit. -/
def concentrationInsight (symbol : String) (concentration : ℚ) (now : Time) :
    CopilotInsight :=
  ⟨"concentration_risk_" ++ symbol, "risk", "High Position Concentration",
   ConfidenceLevel.high, RiskLevel.high, ["Portfolio Analysis"], now, true,
   ["Consider reducing position size", "Diversify portfolio"],
   [("symbol", PyVal.str symbol), ("concentration", PyVal.num concentration)]⟩

/-- The loop body of _analyze_position_concentration: for each position,
concentration = market_value / total_value (Python division), and an
insight is appended when concentration > 0.2. -/
def concentrationLoop (total_value : ℚ) (now : Time) :
    List PositionEntry → Option (List CopilotInsight)
  | [] => some []
  | p :: rest =>
    match pydiv (p.market_value.getD 0) total_value with
    | none => none
    | some conc =>
      match concentrationLoop total_value now rest with
      | none => none
      | some tail =>
        some (if 1 / 5 < conc then concentrationInsight p.symbol conc now :: tail else tail)

/-- CopilotAnalyzer._analyze_position_concentration (src/ai/models/
copilot.py lines 335-361), with the datetime.now() read surfaced as the
explicit parameter now. -/
def analyze_position_concentration (portfolio_data : PortfolioData) (now : Time) :
    Option (List CopilotInsight) :=
  concentrationLoop (portfolio_data.total_value.getD 1) now portfolio_data.positions

/-! ## Claim theorems -/

/-- C1: for suggestion cost 6000 against an account with buying power 5000,
equity (total value) 100000, daily P&L -500 and daily loss limit -1000, the
guardrail evaluation rejects the suggestion with the violation list exactly
["Insufficient buying power", "Position size exceeds 5% portfolio limit"]
in that order, and the buying-power usage figure is 100, for every symbol
and clock reading. -/
theorem guardrails_example_rejects (symbol : String) (now : Time) :
    (check_guardrails ⟨some 5000, some 100000, some (-500), some (-1000)⟩ 6000 symbol now).violations
      = ["Insufficient buying power", "Position size exceeds 5% portfolio limit"] ∧
    (check_guardrails ⟨some 5000, some 100000, some (-500), some (-1000)⟩ 6000 symbol now).max_position_ok
      = false ∧
    (check_guardrails ⟨some 5000, some 100000, some (-500), some (-1000)⟩ 6000 symbol now).risk_limits_ok
      = false ∧
    bp_usage_pct 6000 (some 5000) = some 100 := by
  refine ⟨?_, ?_, ?_, ?_⟩ <;>
    simp [check_guardrails, check_guardrails_violations, bp_usage_pct, pydiv] <;>
    norm_num

/-- C2: the guardrail evaluation is deterministic — two evaluations with
identical account data, cost, symbol and clock reading yield identical
verdicts, the market-hours flag included; the embedding surfaces the only
ambient read of the source (datetime.now()) as the explicit now parameter,
so the verdict is a pure function of its four inputs with no hidden
state. -/
theorem check_guardrails_deterministic (a₁ a₂ : AccountData) (c₁ c₂ : ℚ)
    (s₁ s₂ : String) (n₁ n₂ : Time)
    (ha : a₁ = a₂) (hc : c₁ = c₂) (hs : s₁ = s₂) (hn : n₁ = n₂) :
    check_guardrails a₁ c₁ s₁ n₁ = check_guardrails a₂ c₂ s₂ n₂ := by
  subst ha hc hs hn
  rfl

/-- Witness for C2 at the concrete inputs of the worked example. -/
theorem check_guardrails_deterministic_witness :
    check_guardrails ⟨some 5000, some 100000, some (-500), some (-1000)⟩ 6000 "AAPL" ⟨10, 30⟩
      = check_guardrails ⟨some 5000, some 100000, some (-500), some (-1000)⟩ 6000 "AAPL" ⟨10, 30⟩ :=
  check_guardrails_deterministic
    ⟨some 5000, some 100000, some (-500), some (-1000)⟩
    ⟨some 5000, some 100000, some (-500), some (-1000)⟩
    6000 6000 "AAPL" "AAPL" ⟨10, 30⟩ ⟨10, 30⟩ rfl rfl rfl rfl

/-- C8: the market-hours flag is advisory — with the hour window 9 to 16, a
clock reading of 10:30 reports market_hours_ok = true and one of 20:00
reports false, and for every pair of clock readings the violations list and
the accept flags of the verdict are identical, so the flag never affects
the accept/reject outcome. -/
theorem market_hours_flag_advisory (a : AccountData) (c : ℚ) (s : String) :
    (check_guardrails a c s ⟨10, 30⟩).market_hours_ok = true ∧
    (check_guardrails a c s ⟨20, 0⟩).market_hours_ok = false ∧
    ∀ n₁ n₂ : Time,
      (check_guardrails a c s n₁).violations = (check_guardrails a c s n₂).violations ∧
      (check_guardrails a c s n₁).max_position_ok = (check_guardrails a c s n₂).max_position_ok ∧
      (check_guardrails a c s n₁).daily_loss_ok = (check_guardrails a c s n₂).daily_loss_ok ∧
      (check_guardrails a c s n₁).risk_limits_ok = (check_guardrails a c s n₂).risk_limits_ok :=
  ⟨rfl, rfl, fun _ _ => ⟨rfl, rfl, rfl, rfl⟩⟩

/-- C9: the verdict accepts exactly when its violations list is empty —
both acceptance flags of the verdict (max_position_ok and risk_limits_ok,
each computed as len(violations) == 0) are true iff the violations list is
empty. -/
theorem accept_iff_no_violations (a : AccountData) (c : ℚ) (s : String) (n : Time) :
    ((check_guardrails a c s n).max_position_ok = true ↔
      (check_guardrails a c s n).violations = []) ∧
    ((check_guardrails a c s n).risk_limits_ok = true ↔
      (check_guardrails a c s n).violations = []) := by
  constructor <;> simp [check_guardrails]

/-- C5: with the daily P&L and daily-loss-limit fields present, the
violation "Daily loss limit reached" is emitted exactly when
daily_pnl < daily_loss_limit, and when the limit is negative a positive
daily P&L never triggers it. -/
theorem daily_loss_violation_iff (a : AccountData) (c : ℚ) (s : String) (n : Time)
    (pnl dl : ℚ) (hp : a.daily_pnl = some pnl) (hd : a.daily_loss_limit = some dl) :
    ("Daily loss limit reached" ∈ (check_guardrails a c s n).violations ↔ pnl < dl) ∧
    (dl < 0 → 0 < pnl → "Daily loss limit reached" ∉ (check_guardrails a c s n).violations) := by
  have key : "Daily loss limit reached" ∈ (check_guardrails a c s n).violations ↔ pnl < dl := by
    simp only [check_guardrails, check_guardrails_violations, hp, hd, Option.getD_some,
      List.mem_append]
    split_ifs <;> simp_all
  refine ⟨key, fun hdl hpnl hmem => ?_⟩
  have := key.mp hmem
  linarith

/-- Witness for C5 at concrete inputs: a daily gain of 200 against the
negative limit -1000 never triggers the daily-loss violation. -/
theorem daily_loss_violation_iff_witness :
    "Daily loss limit reached"
      ∉ (check_guardrails ⟨some 5000, some 100000, some 200, some (-1000)⟩ 6000 "AAPL" ⟨10, 30⟩).violations :=
  (daily_loss_violation_iff ⟨some 5000, some 100000, some 200, some (-1000)⟩
    6000 "AAPL" ⟨10, 30⟩ 200 (-1000) rfl rfl).2 (by norm_num) (by norm_num)

/-- C4 counterexample: with cost 6000 and an explicitly negative buying
power -5000, the computed buying-power usage is -120, which is below 0, so
the figure does not lie in [0, 100] for every input. -/
theorem bp_usage_negative_cex :
    bp_usage_pct 6000 (some (-5000)) = some (-120) ∧ ¬(0 ≤ (-120 : ℚ)) := by
  constructor
  · have h : (-5000 : ℚ) ≠ 0 := by norm_num
    rw [bp_usage_pct, Option.getD_some, pydiv_of_ne_zero _ _ h]
    norm_num
  · norm_num

/-- C4 (amended): the buying-power usage is min(cost / buying_power * 100,
100), clamped above at 100 but not below at 0; when the cost is
nonnegative and the buying power positive it lies in [0, 100]. -/
theorem bp_usage_range (cost bp : ℚ) (hc : 0 ≤ cost) (hb : 0 < bp) :
    bp_usage_pct cost (some bp) = some (min (cost / bp * 100) 100) ∧
    0 ≤ min (cost / bp * 100) 100 ∧ min (cost / bp * 100) 100 ≤ 100 := by
  refine ⟨?_, le_min (mul_nonneg (div_nonneg hc hb.le) (by norm_num)) (by norm_num),
    min_le_right _ _⟩
  rw [bp_usage_pct, Option.getD_some, pydiv_of_ne_zero _ _ (ne_of_gt hb)]
  rfl

/-- Witness for C4 at cost 6000 and buying power 5000. -/
theorem bp_usage_range_witness :
    bp_usage_pct 6000 (some 5000) = some (min ((6000 : ℚ) / 5000 * 100) 100) ∧
    0 ≤ min ((6000 : ℚ) / 5000 * 100) 100 ∧ min ((6000 : ℚ) / 5000 * 100) 100 ≤ 100 :=
  bp_usage_range 6000 5000 (by norm_num) (by norm_num)

/-- C3: the divisions are not guarded against an explicitly zero
denominator — with buying_power present and equal to 0 the buying-power
usage computation divides by zero (the dict default 1 only covers a missing
key), and with total_value present and equal to 0 the concentration
computation divides by zero; both raise instead of producing the sentinel
100 percent the claim states. -/
theorem division_unguarded_at_zero :
    bp_usage_pct 6000 (some 0) = none ∧
    analyze_position_concentration ⟨[⟨"AAPL", some 25000⟩], some 0⟩ ⟨10, 30⟩ = none := by
  constructor
  · rw [bp_usage_pct, Option.getD_some, pydiv_zero]
    rfl
  · rfl

/-- C6: the forbidden-symbol set is maintained but never enforced — after
add_forbidden_symbol("tsla") the set contains "TSLA", yet
validate_suggestion accepts a low-risk high-confidence TSLA suggestion with
"Suggestion validated" (no code path consults forbidden_symbols), and
_check_guardrails produces the same verdict whatever its symbol argument
is. -/
theorem forbidden_symbol_not_enforced :
    "TSLA" ∈ (add_forbidden_symbol SafetyGuardrails.init "tsla").forbidden_symbols ∧
    validate_suggestion (add_forbidden_symbol SafetyGuardrails.init "tsla")
      ⟨"suggestion_TSLA", "technical", "Momentum setup in TSLA",
       ConfidenceLevel.high, RiskLevel.low, ["Technical Analysis"], ⟨10, 30⟩, true,
       ["Consider buying opportunities"], [("symbol", PyVal.str "TSLA")]⟩
      ⟨none, none⟩
      = some (true, "Suggestion validated") ∧
    check_guardrails ⟨some 100000, some 100000, some 0, some (-1000)⟩ 100 "TSLA" ⟨10, 30⟩
      = check_guardrails ⟨some 100000, some 100000, some 0, some (-1000)⟩ 100 "SAFE" ⟨10, 30⟩ := by
  refine ⟨?_, rfl, rfl⟩
  have h : pyUpper "tsla" = "TSLA" := by decide
  simp [add_forbidden_symbol, SafetyGuardrails.init, h]

/-- C7 counterexample: concentration analysis is not a pure function of the
portfolio snapshot alone — the same one-position 25 percent portfolio
analyzed at two different clock readings yields different outputs, because
each emitted insight carries the datetime.now() timestamp. -/
theorem concentration_not_pure_cex :
    analyze_position_concentration ⟨[⟨"AAPL", some 25000⟩], some 100000⟩ ⟨10, 30⟩
      ≠ analyze_position_concentration ⟨[⟨"AAPL", some 25000⟩], some 100000⟩ ⟨20, 0⟩ := by
  norm_num [analyze_position_concentration, concentrationLoop, pydiv, concentrationInsight,
    Time.mk.injEq]

/-- C7 (amended): concentration analysis is a pure function of the
portfolio snapshot and the evaluation timestamp stamped into each warning —
for a nonzero total value it emits, in position order, exactly one
high-risk warning for every position whose market_value / total_value
exceeds 20 percent, carrying that symbol and its concentration fraction. -/
theorem concentration_analysis_spec (pd : PortfolioData) (tv : ℚ) (now : Time)
    (htv : pd.total_value = some tv) (h0 : tv ≠ 0) :
    analyze_position_concentration pd now =
      some (pd.positions.filterMap (fun p =>
        if 1 / 5 < p.market_value.getD 0 / tv then
          some (concentrationInsight p.symbol (p.market_value.getD 0 / tv) now)
        else none)) := by
  unfold analyze_position_concentration
  rw [htv, Option.getD_some]
  induction pd.positions with
  | nil => rfl
  | cons p rest ih =>
    simp only [concentrationLoop, pydiv_of_ne_zero _ _ h0, ih, List.filterMap_cons]
    split_ifs with hc <;> rfl

/-- Witness for C7: the one-position 25 percent portfolio yields exactly
one warning, carrying the symbol AAPL and the concentration 1/4. -/
theorem concentration_analysis_spec_witness :
    analyze_position_concentration ⟨[⟨"AAPL", some 25000⟩], some 100000⟩ ⟨10, 30⟩
      = some [concentrationInsight "AAPL" (1 / 4) ⟨10, 30⟩] := by
  rw [concentration_analysis_spec ⟨[⟨"AAPL", some 25000⟩], some 100000⟩ 100000 ⟨10, 30⟩
    rfl (by norm_num)]
  norm_num [List.filterMap_cons]

/-- C10: validate_suggestion returns a single reason per call, evaluating
its checks in the fixed order risk-level, confidence, daily-loss,
volatility and returning (False, reason) for the first failing check, so
later failing checks are never reported; it returns
(True, "Suggestion validated") exactly when no check fails, where a falsy
(absent or empty) portfolio or market context skips the daily-loss or
volatility check entirely.  The theorem is stated for executions in which
the daily-loss division is defined (total_value not explicitly zero); an
explicitly zero total_value raises instead, which is claim C3's
territory. -/
theorem validate_suggestion_first_failure (g : SafetyGuardrails)
    (insight : CopilotInsight) (ctx : ValidationContext)
    (hdiv : ∀ pf, ctx.portfolio = some pf → pf.total_value ≠ some 0) :
    ((insight.risk_level = RiskLevel.high ∨ insight.risk_level = RiskLevel.extreme) →
      validate_suggestion g insight ctx
        = some (false, "Risk level " ++ insight.risk_level.value ++ " exceeds safety threshold")) ∧
    (¬(insight.risk_level = RiskLevel.high ∨ insight.risk_level = RiskLevel.extreme) →
      insight.confidence = ConfidenceLevel.low →
      validate_suggestion g insight ctx
        = some (false, "Confidence level too low for actionable suggestion")) ∧
    (¬(insight.risk_level = RiskLevel.high ∨ insight.risk_level = RiskLevel.extreme) →
      insight.confidence ≠ ConfidenceLevel.low →
      ∀ pf, ctx.portfolio = some pf →
        g.max_daily_loss_pct < |pf.daily_pnl.getD 0 / pf.total_value.getD 1| →
        validate_suggestion g insight ctx = some (false, "Daily loss limit exceeded")) ∧
    (¬(insight.risk_level = RiskLevel.high ∨ insight.risk_level = RiskLevel.extreme) →
      insight.confidence ≠ ConfidenceLevel.low →
      (∀ pf, ctx.portfolio = some pf →
        |pf.daily_pnl.getD 0 / pf.total_value.getD 1| ≤ g.max_daily_loss_pct) →
      ∀ mk, ctx.market = some mk →
        g.volatility_threshold < mk.volatility.getD 0 →
        validate_suggestion g insight ctx = some (false, "Market volatility too high")) ∧
    (validate_suggestion g insight ctx = some (true, "Suggestion validated") ↔
      ¬(insight.risk_level = RiskLevel.high ∨ insight.risk_level = RiskLevel.extreme) ∧
      insight.confidence ≠ ConfidenceLevel.low ∧
      (∀ pf, ctx.portfolio = some pf →
        |pf.daily_pnl.getD 0 / pf.total_value.getD 1| ≤ g.max_daily_loss_pct) ∧
      (∀ mk, ctx.market = some mk →
        mk.volatility.getD 0 ≤ g.volatility_threshold)) := by
  have htv : ∀ pf, ctx.portfolio = some pf → pf.total_value.getD 1 ≠ 0 := by
    intro pf hpf
    have h := hdiv pf hpf
    cases h2 : pf.total_value with
    | none => simp
    | some v =>
      simp only [Option.getD_some]
      intro hv
      exact h (by rw [h2, hv])
  refine ⟨?_, ?_, ?_, ?_, ?_⟩
  · intro hr
    simp [validate_suggestion, hr]
  · intro hr hc
    simp [validate_suggestion, hr, hc]
  · intro hr hc pf hpf hdl
    have hne := htv pf hpf
    simp [validate_suggestion, hr, hc, hpf, pydiv_of_ne_zero _ _ hne, hdl]
  · intro hr hc hok mk hmk hv
    cases hpf : ctx.portfolio with
    | none =>
      simp [validate_suggestion, hr, hc, hpf, market_volatility_step, hmk, hv]
    | some pf =>
      have hne := htv pf hpf
      have hd := hok pf hpf
      simp [validate_suggestion, hr, hc, hpf, pydiv_of_ne_zero _ _ hne, not_lt.mpr hd,
        market_volatility_step, hmk, hv]
  · constructor
    · intro hval
      by_cases hr : insight.risk_level = RiskLevel.high ∨ insight.risk_level = RiskLevel.extreme
      · simp [validate_suggestion, hr] at hval
      by_cases hc : insight.confidence = ConfidenceLevel.low
      · simp [validate_suggestion, hr, hc] at hval
      refine ⟨hr, hc, ?_, ?_⟩
      · intro pf hpf
        have hne := htv pf hpf
        by_contra hgt
        push_neg at hgt
        simp [validate_suggestion, hr, hc, hpf, pydiv_of_ne_zero _ _ hne, hgt] at hval
      · intro mk hmk
        by_contra hgt
        push_neg at hgt
        cases hpf : ctx.portfolio with
        | none =>
          simp [validate_suggestion, hr, hc, hpf, market_volatility_step, hmk, hgt] at hval
        | some pf =>
          have hne := htv pf hpf
          by_cases hdl : g.max_daily_loss_pct < |pf.daily_pnl.getD 0 / pf.total_value.getD 1|
          · simp [validate_suggestion, hr, hc, hpf, pydiv_of_ne_zero _ _ hne, hdl] at hval
          · simp [validate_suggestion, hr, hc, hpf, pydiv_of_ne_zero _ _ hne, hdl,
              market_volatility_step, hmk, hgt] at hval
    · rintro ⟨hr, hc, hdl, hv⟩
      cases hpf : ctx.portfolio with
      | none =>
        cases hmk : ctx.market with
        | none => simp [validate_suggestion, hr, hc, hpf, market_volatility_step, hmk]
        | some mk =>
          simp [validate_suggestion, hr, hc, hpf, market_volatility_step, hmk,
            not_lt.mpr (hv mk hmk)]
      | some pf =>
        have hne := htv pf hpf
        have hd := hdl pf hpf
        cases hmk : ctx.market with
        | none =>
          simp [validate_suggestion, hr, hc, hpf, pydiv_of_ne_zero _ _ hne, not_lt.mpr hd,
            market_volatility_step, hmk]
        | some mk =>
          simp [validate_suggestion, hr, hc, hpf, pydiv_of_ne_zero _ _ hne, not_lt.mpr hd,
            market_volatility_step, hmk, not_lt.mpr (hv mk hmk)]

/-- Witness for C10: a low-risk medium-confidence suggestion against a
portfolio losing 500 of 100000 (0.5 percent, under the 2 percent limit)
and a market with volatility 0.2 (under the 0.5 threshold) is validated. -/
theorem validate_suggestion_first_failure_witness :
    validate_suggestion SafetyGuardrails.init
      ⟨"rsi_oversold_AAPL", "technical", "Oversold Condition Detected",
       ConfidenceLevel.medium, RiskLevel.low, ["RSI Technical Indicator"], ⟨10, 30⟩, true,
       ["Consider buying opportunities"], [("rsi", PyVal.num 28)]⟩
      ⟨some ⟨some (-500), some 100000⟩, some ⟨some (1 / 5)⟩⟩
      = some (true, "Suggestion validated") :=
  (validate_suggestion_first_failure SafetyGuardrails.init
    ⟨"rsi_oversold_AAPL", "technical", "Oversold Condition Detected",
     ConfidenceLevel.medium, RiskLevel.low, ["RSI Technical Indicator"], ⟨10, 30⟩, true,
     ["Consider buying opportunities"], [("rsi", PyVal.num 28)]⟩
    ⟨some ⟨some (-500), some 100000⟩, some ⟨some (1 / 5)⟩⟩
    (by intro pf hpf; cases hpf; simp)).2.2.2.2.mpr
    ⟨by simp, by simp,
     by intro pf hpf; cases hpf; norm_num [abs_div, SafetyGuardrails.init],
     by intro mk hmk; cases hmk; norm_num [SafetyGuardrails.init]⟩

end FrontierTrading
